import Mathlib

/-!
Verification development for the `asyncpg-simpleorm` statement-building engine.

The definitions below are a shallow embedding of the Python sources:
  * `asyncpg_simpleorm/statements/base_statement.py`
    (`counter`, `StatementDescriptor`, `ClauseDescriptor`, `StatementValues`,
     `BaseStatement`),
  * `asyncpg_simpleorm/statements/__init__.py`
    (`_reset_counter`, `Statement` with `_get_column`, `_get_args_from_model`,
     `_get_args_from_kwargs`, `_get_args`, `_parse_where_items`, `_parse_where`,
     `from_`, `select`, `insert`, `where`, `update`, `delete`, and the four
     statement factories),
  * `asyncpg_simpleorm/async_model.py` (`BaseModel` column introspection:
    `column_names`, `primary_keys`, `tablename`, `attr_name_for_column`,
    `ensured_column_name`),
  * `asyncpg_simpleorm/column/__init__.py` (`Column.__get__` / `Column.__set__`).

Python runtime values that flow through the builder (query arguments, kwargs,
column values) are modelled by the `Value` type; Python exceptions by `PyErr`;
fallible code returns `Except PyErr`.  Python string builtins used by the code
(`str.split`, `str.strip`, `int(...)`, `sep.join`) are modelled by structurally
recursive functions over `List Char` so that everything reduces in the kernel.
-/

namespace Orm

/-- Python runtime values as they appear in query arguments and kwargs:
`None`, ints, strings and booleans.  (`Value.none` is Python `None`.) -/
inductive Value where
  | none
  | int (n : Int)
  | str (s : String)
  | bool (b : Bool)
deriving DecidableEq, Repr

/-- Python truthiness of a `Value`: `None`, `0`, `""` and `False` are falsy. -/
def Value.truthy : Value → Bool
  | Value.none => false
  | Value.int n => n != 0
  | Value.str s => s != ""
  | Value.bool b => b

/-- The Python exception kinds raised by the embedded code: `TypeError`,
`ValueError`, `AttributeError` (attribute access on `None`). -/
inductive PyErr where
  | typeError
  | valueError
  | attributeError
deriving DecidableEq, Repr

/-- Result of fallible Python code. -/
abbrev Res (α : Type) := Except PyErr α

deriving instance DecidableEq for Except

/- ### Models of the Python string builtins used by the statement code -/

/-- If `pre` is a prefix of `s`, return the remainder, else `Option.none`.
Helper for the model of `str.split`. -/
def dropPre : List Char → List Char → Option (List Char)
  | [], s => some s
  | _ :: _, [] => Option.none
  | p :: ps, c :: cs => if p = c then dropPre ps cs else Option.none

/-- Fuel-driven worker for `pySplit`; `acc` holds the chars of the current
piece in reverse order. -/
def pySplitAux (sep : List Char) : Nat → List Char → List Char → List (List Char)
  | _, acc, [] => [acc.reverse]
  | 0, acc, rest => [acc.reverse ++ rest]
  | fuel + 1, acc, c :: cs =>
    match dropPre sep (c :: cs) with
    | some rem => acc.reverse :: pySplitAux sep fuel [] rem
    | Option.none => pySplitAux sep fuel (c :: acc) cs

/-- Model of Python `s.split(sep)` for a non-empty separator: the list of
pieces between consecutive occurrences of `sep`. -/
def pySplit (sep s : List Char) : List (List Char) :=
  pySplitAux sep s.length [] s

/-- Model of Python `s.strip()`: drop whitespace at both ends. -/
def pyStrip (s : List Char) : List Char :=
  ((s.dropWhile Char.isWhitespace).reverse.dropWhile Char.isWhitespace).reverse

/-- Numeric value of a run of decimal digits. -/
def digitsVal (ds : List Char) : Nat :=
  ds.foldl (fun acc c => acc * 10 + (c.toNat - '0'.toNat)) 0

/-- Parse a non-empty all-digit string. -/
def digitsToNat? (ds : List Char) : Option Nat :=
  if ds.isEmpty then Option.none
  else if ds.all Char.isDigit then some (digitsVal ds) else Option.none

/-- Model of Python `int(s)` on the strings arising here: strip whitespace,
allow an optional sign, then require only decimal digits; anything else
raises `ValueError` (here: `Option.none`). -/
def pyInt? (s : List Char) : Option Int :=
  match pyStrip s with
  | '-' :: ds => (digitsToNat? ds).map (fun n => -(n : Int))
  | '+' :: ds => (digitsToNat? ds).map (fun n => (n : Int))
  | ds => (digitsToNat? ds).map (fun n => (n : Int))

/-- Model of Python `sep.join(parts)`. -/
def pyJoin (sep : String) : List String → String
  | [] => ""
  | [x] => x
  | x :: y :: rest => x ++ sep ++ pyJoin sep (y :: rest)

/- ### Model metadata (`BaseModel` classmethods in `async_model.py`) -/

/-- One declared `Column` of a model, after the metaclass has filled in the
key: the attribute name it was declared under, its database key, and the
primary-key flag. -/
structure MCol where
  attr : String
  key : String
  primary_key : Bool
deriving DecidableEq, Repr

/-- The column metadata of a model class: its table name and its `Column`s in
declaration order. -/
structure ModelClass where
  tablename : String
  cols : List MCol
deriving DecidableEq, Repr

/-- `BaseModel.column_names`: the database keys in declaration order. -/
def ModelClass.column_names (m : ModelClass) : List String :=
  m.cols.map (·.key)

/-- `BaseModel.primary_keys`: the keys of the primary-key columns. -/
def ModelClass.primary_keys (m : ModelClass) : List String :=
  (m.cols.filter (·.primary_key)).map (·.key)

/-- Loop of `BaseModel.attr_name_for_column`: first matching column wins; a
key match returns the attribute name, an attribute-name match returns the
input; no match raises `ValueError`. -/
def attrNameForColumnAux : List MCol → String → Res String
  | [], _ => .error .valueError
  | c :: rest, k =>
    if c.key = k then .ok c.attr
    else if c.attr = k then .ok k
    else attrNameForColumnAux rest k

/-- `BaseModel.attr_name_for_column`. -/
def ModelClass.attr_name_for_column (m : ModelClass) (k : String) : Res String :=
  attrNameForColumnAux m.cols k

/-- Loop of `BaseModel.ensured_column_name`: first matching column wins; a
key match returns the input, an attribute-name match returns that column's
key; no match raises `ValueError`. -/
def ensuredColumnNameAux : List MCol → String → Res String
  | [], _ => .error .valueError
  | c :: rest, k =>
    if k = c.key then .ok k
    else if k = c.attr then .ok c.key
    else ensuredColumnNameAux rest k

/-- `BaseModel.ensured_column_name`. -/
def ModelClass.ensured_column_name (m : ModelClass) (k : String) : Res String :=
  ensuredColumnNameAux m.cols k

/-- The model bound to a statement builder: `None`, a model class, or a model
instance.  For an instance, `vals` maps each attribute name to the value
`getattr(instance, attr)` returns (column defaults already materialised);
a missing entry behaves as `None`, matching `getattr(instance, attr, None)`. -/
inductive BoundModel where
  | none
  | cls (mc : ModelClass)
  | inst (mc : ModelClass) (vals : List (String × Value))
deriving DecidableEq, Repr

/-- The class metadata of a bound model, when there is one. -/
def BoundModel.meta? : BoundModel → Option ModelClass
  | BoundModel.none => Option.none
  | BoundModel.cls mc => some mc
  | BoundModel.inst mc _ => some mc

/-- `self.model.tablename()`: an `AttributeError` when the model is `None`. -/
def BoundModel.tablenameR : BoundModel → Res String
  | BoundModel.none => .error .attributeError
  | BoundModel.cls mc => .ok mc.tablename
  | BoundModel.inst mc _ => .ok mc.tablename

/- ### `StatementValues` (`base_statement.py`) -/

/-- A stored statement or clause: the pair `(query_string, args)` that
`BaseStatement.set_statement` stores in a descriptor slot. -/
structure StmtVal where
  text : String
  args : List Value
deriving DecidableEq, Repr

/-- The six descriptor slots of `StatementValues`: one `StatementDescriptor`
per statement kind (`select`, `insert`, `update`, `delete`) and one
`ClauseDescriptor` per clause (`from_`, `where`). -/
structure StatementValues where
  select : Option StmtVal
  insert : Option StmtVal
  update : Option StmtVal
  delete : Option StmtVal
  from_ : Option StmtVal
  where_ : Option StmtVal
deriving DecidableEq, Repr

/-- A freshly constructed `StatementValues()`: every slot unset. -/
def StatementValues.empty : StatementValues :=
  ⟨Option.none, Option.none, Option.none, Option.none, Option.none, Option.none⟩

/-- `StatementValues.get_statement` (non-strict): scan the statement slots in
declaration order (`select`, `insert`, `update`, `delete`) and return the
first truthy value.  A stored `(text, args)` tuple is always truthy. -/
def StatementValues.get_statement (v : StatementValues) : Option StmtVal :=
  match v.select with
  | some x => some x
  | Option.none =>
    match v.insert with
    | some x => some x
    | Option.none =>
      match v.update with
      | some x => some x
      | Option.none => v.delete

/-- `StatementValues.get_clauses`: the clause slots in declaration order
(`from_`, then `where`). -/
def StatementValues.get_clauses (v : StatementValues) : List (Option StmtVal) :=
  [v.from_, v.where_]

/-- The key under which `BaseStatement.set_statement` stores a value
(`self._values[key] = ...`). -/
inductive StoreKey where
  | select
  | insert
  | update
  | delete
  | from_
  | where_
deriving DecidableEq, Repr

/-- Descriptor assignment `self._values[key] = val`.  The four statement
slots use `StatementDescriptor.__set__`, which raises `TypeError` whenever
`get_statement()` is not `None` (i.e. some statement slot, of any kind,
already holds a value); the clause slots use `ClauseDescriptor`, which always
overwrites. -/
def StatementValues.setValue (v : StatementValues) (key : StoreKey) (val : StmtVal) :
    Res StatementValues :=
  match key with
  | .select =>
    if v.get_statement.isSome then .error .typeError else .ok { v with select := some val }
  | .insert =>
    if v.get_statement.isSome then .error .typeError else .ok { v with insert := some val }
  | .update =>
    if v.get_statement.isSome then .error .typeError else .ok { v with update := some val }
  | .delete =>
    if v.get_statement.isSome then .error .typeError else .ok { v with delete := some val }
  | .from_ => .ok { v with from_ := some val }
  | .where_ => .ok { v with where_ := some val }

/-- `StatementValues.query_string(sep)`: raise `TypeError` when no statement
is set (strict `get_statement`), else join the statement text and the texts
of the set clauses with `sep`. -/
def StatementValues.query_string (v : StatementValues) (sep : String) : Res String :=
  match v.get_statement with
  | Option.none => .error .typeError
  | some stmt =>
    .ok (pyJoin sep (stmt.text :: (v.get_clauses.filterMap id).map (·.text)))

/-- `StatementValues.query_args`: the statement args followed by the args of
each set clause, in clause order (`from_`, then `where`). -/
def StatementValues.query_args (v : StatementValues) : List Value :=
  (match v.get_statement with
   | some stmt => stmt.args
   | Option.none => []) ++
  List.flatten ((v.get_clauses.filterMap id).map (·.args))

/-- `BaseStatement.query` / `__iter__`: the tuple
`(query_string(), *query_args())` handed to `asyncpg`. -/
def StatementValues.query (v : StatementValues) : Res (String × List Value) :=
  match v.query_string "\n" with
  | .error e => .error e
  | .ok s => .ok (s, v.query_args)

/- ### The `Statement` builder (`statements/__init__.py`) -/

/-- The mutable state of a `Statement` builder: the bound model, the kwargs
mapping, the placeholder counter (`count` is the next value `next(self.count)`
yields), and the `StatementValues` store. -/
structure Stmt where
  model : BoundModel
  kwargs : List (String × Value)
  count : Int
  values : StatementValues
deriving DecidableEq, Repr

/-- `Statement(model, kwargs)` with the default `arg_count=1`. -/
def Stmt.mk0 (model : BoundModel) (kwargs : List (String × Value)) : Stmt :=
  { model := model, kwargs := kwargs, count := 1, values := StatementValues.empty }

/-- `_reset_counter._find_ints` followed by `next(..., None)`: if `stmt`
occurs in `s`, split on `stmt`, take the segment after the first occurrence,
split it on `'$'`, and return the first piece that `int(...)` accepts. -/
def findFirstInt (stmt : String) (s : String) : Option Int :=
  match pySplit stmt.data s.data with
  | _ :: seg :: _ => ((pySplit ['$'] seg).filterMap pyInt?).head?
  | _ => Option.none

/-- `BaseStatement.set_statement`: when the query-string fragment is truthy
(non-empty), store `(text, args or ())` under `key`; return the builder. -/
def Stmt.set_statement (s : Stmt) (key : StoreKey) (text : String) (args : List Value) :
    Res Stmt :=
  if text.length = 0 then .ok s
  else
    match s.values.setValue key ⟨text, args⟩ with
    | .error e => .error e
    | .ok v => .ok { s with values := v }

/-- `BaseStatement.query_string`, delegating to the value store. -/
def Stmt.query_string (s : Stmt) (sep : String) : Res String :=
  s.values.query_string sep

/-- `BaseStatement.query_args`, delegating to the value store. -/
def Stmt.query_args (s : Stmt) : List Value :=
  s.values.query_args

/-- `BaseStatement.query` / `__iter__`, delegating to the value store. -/
def Stmt.query (s : Stmt) : Res (String × List Value) :=
  s.values.query

/-- `BaseStatement._column_string`: join the model's column names with
`', '`, optionally table-qualified.  On a `None` model the attribute access
`self.model.column_names()` raises `AttributeError`. -/
def Stmt.column_string (s : Stmt) (tablename : Bool) : Res String :=
  match s.model.meta? with
  | Option.none => .error .attributeError
  | some mc =>
    let cols := mc.column_names
    if tablename then .ok (pyJoin ", " (cols.map (fun x => mc.tablename ++ "." ++ x)))
    else .ok (pyJoin ", " cols)

/-- The loop of `Statement._get_args_from_model`: `_get_column(col)` for each
column name — resolve the attribute name (a `ValueError` propagates) and read
`getattr(self.model, attr, None)` from the instance values. -/
def getArgsLoop (mc : ModelClass) (vals : List (String × Value)) :
    List String → Res (List Value)
  | [] => .ok []
  | col :: rest =>
    match attrNameForColumnAux mc.cols col with
    | .error e => .error e
    | .ok attr =>
      match getArgsLoop mc vals rest with
      | .error e => .error e
      | .ok vs => .ok (((List.lookup attr vals).getD Value.none) :: vs)

/-- `Statement._get_args_from_model`: `TypeError` unless the bound model is
an instance, else the values of all columns in declaration order. -/
def Stmt.get_args_from_model (s : Stmt) : Res (List Value) :=
  match s.model with
  | BoundModel.inst mc vals => getArgsLoop mc vals mc.column_names
  | _ => .error .typeError

/-- The loop of `Statement._get_args_from_kwargs`:
`kwargs.get(col, kwargs.get(attr_name_for_column(col)))` for each column name
(the inner default is evaluated unconditionally, so a resolution `ValueError`
would propagate). -/
def kwargsArgsLoop (mc : ModelClass) (kwargs : List (String × Value)) :
    List String → Res (List Value)
  | [] => .ok []
  | col :: rest =>
    match attrNameForColumnAux mc.cols col with
    | .error e => .error e
    | .ok attr =>
      match kwargsArgsLoop mc kwargs rest with
      | .error e => .error e
      | .ok vs =>
        .ok (((List.lookup col kwargs).getD ((List.lookup attr kwargs).getD Value.none)) :: vs)

/-- `Statement._get_args_from_kwargs`: `TypeError` when no kwargs are set;
with a `None` model the column iteration raises `AttributeError`. -/
def Stmt.get_args_from_kwargs (s : Stmt) : Res (List Value) :=
  if s.kwargs.isEmpty then .error .typeError
  else
    match s.model.meta? with
    | Option.none => .error .attributeError
    | some mc => kwargsArgsLoop mc s.kwargs mc.column_names

/-- `Statement._get_args`: model values first; on their `TypeError` fall back
to the kwargs (any other exception propagates). -/
def Stmt.get_args (s : Stmt) : Res (List Value) :=
  match s.get_args_from_model with
  | .ok args => .ok args
  | .error .typeError => s.get_args_from_kwargs
  | .error e => .error e

/-- The `try: key = ensured_column_name(key) except ValueError: pass` step of
`_parse_where_items`: resolve the key, keeping it unchanged on `ValueError`. -/
def resolveKey (mc : ModelClass) (k : String) : String :=
  match ensuredColumnNameAux mc.cols k with
  | .ok k' => k'
  | .error _ => k

/-- The loop of `Statement._parse_where_items` over the `(key, value)` pairs,
threading the placeholder counter.  For each pair: resolve the key through
`ensured_column_name` (a `ValueError` is swallowed, keeping the key as-is);
then evaluate Python's `value and check is None or key in check`, which by
operator precedence is `(value and check is None) or (key in check)` — when
`check` is `None` and `value` is falsy, the membership test `key in None`
raises `TypeError`.  An included pair consumes one counter value and
contributes `'<table>.<key> = $<n>'` and its value; an excluded pair raises
`ValueError` when `strict_check` is on and `check` is not `None`, else is
skipped. -/
def parseWhereItemsAux (mc : ModelClass) (check : Option (List String)) (strict : Bool) :
    List (String × Value) → Int → Res (List String × List Value × Int)
  | [], count => .ok ([], [], count)
  | (k, v) :: rest, count =>
    let key := resolveKey mc k
    let cond : Res Bool :=
      if v.truthy && check.isNone then .ok true
      else
        match check with
        | Option.none => .error .typeError
        | some cs => .ok (cs.contains key)
    match cond with
    | .error e => .error e
    | .ok true =>
      match parseWhereItemsAux mc check strict rest (count + 1) with
      | .error e => .error e
      | .ok (strings, args, c') =>
        .ok ((mc.tablename ++ "." ++ key ++ " = $" ++ toString count) :: strings,
             v :: args, c')
    | .ok false =>
      if strict && check.isSome then .error .valueError
      else parseWhereItemsAux mc check strict rest count

/-- `Statement._parse_where_items`: look up the table name (an
`AttributeError` on a `None` model), run the loop, raise `TypeError` when no
pair was included, else return the `' AND'`-joined partial string (note: no
space after `AND`), the args and the updated counter. -/
def Stmt.parse_where_items (s : Stmt) (items : List (String × Value))
    (check : Option (List String)) (strict : Bool) : Res (String × List Value × Int) :=
  match s.model.meta? with
  | Option.none => .error .attributeError
  | some mc =>
    match parseWhereItemsAux mc check strict items s.count with
    | .error e => .error e
    | .ok (strings, args, c') =>
      if strings.length = 0 then .error .typeError
      else .ok (pyJoin " AND" strings, args, c')

/-- The generator of `Statement._parse_where`'s instance branch:
`(col, _get_column(col))` for each primary-key column. -/
def pkItemsLoop (mc : ModelClass) (vals : List (String × Value)) :
    List String → Res (List (String × Value))
  | [] => .ok []
  | col :: rest =>
    match attrNameForColumnAux mc.cols col with
    | .error e => .error e
    | .ok attr =>
      match pkItemsLoop mc vals rest with
      | .error e => .error e
      | .ok items => .ok ((col, (List.lookup attr vals).getD Value.none) :: items)

/-- `Statement._parse_where`: pick the check set (`primary_keys()` non-strict,
or `column_names()` strict) — on a `None` model this attribute access raises
`AttributeError` — then parse the kwargs if any; otherwise, for a model
instance, parse the instance's primary-key values with `check=None`; a bare
class with no kwargs raises `TypeError`. -/
def Stmt.parse_where (s : Stmt) (primary_keys : Bool) : Res (String × List Value × Int) :=
  match s.model.meta? with
  | Option.none => .error .attributeError
  | some mc =>
    let check := if primary_keys then mc.primary_keys else mc.column_names
    let strict := if primary_keys then false else true
    if !s.kwargs.isEmpty then
      s.parse_where_items s.kwargs (some check) strict
    else
      match s.model with
      | BoundModel.inst mc' vals =>
        match pkItemsLoop mc' vals mc'.primary_keys with
        | .error e => .error e
        | .ok items => s.parse_where_items items Option.none false
      | _ => .error .typeError

/-- The `try`-block body of `Statement.where` after the kwargs have been
stored: parse, then store the `WHERE` fragment (the counter was already
advanced by the parse). -/
def whereBody (s : Stmt) (primary_keys : Bool) : Res Stmt :=
  match s.parse_where primary_keys with
  | .error e => .error e
  | .ok (where_str, args, c') =>
    ({ s with count := c' }).set_statement .where_ ("WHERE " ++ where_str) args

/-- `Statement.where`, including its `_reset_counter('WHERE')` decorator: the
decorator first calls `query_string()` — whose `TypeError` when no statement
is set propagates, `safe_call` notwithstanding — and resets the counter to the
first integer found after `WHERE`; the body then stores the kwargs, parses,
and stores the fragment, with `TypeError`/`ValueError` swallowed (returning
the builder) when `safe_call` is on. -/
def Stmt.where_ (s : Stmt) (primary_keys safe_call : Bool)
    (kwargs : List (String × Value)) : Res Stmt :=
  match s.values.query_string "\n" with
  | .error e => .error e
  | .ok qs =>
    let s1 :=
      match findFirstInt "WHERE" qs with
      | some c => { s with count := c }
      | Option.none => s
    let s2 := if kwargs.isEmpty then s1 else { s1 with kwargs := kwargs }
    match whereBody s2 primary_keys with
    | .ok st => .ok st
    | .error PyErr.typeError => if safe_call then .ok s2 else .error .typeError
    | .error PyErr.valueError => if safe_call then .ok s2 else .error .valueError
    | .error e => .error e

/-- `Statement.from_`: store the `FROM` clause. -/
def Stmt.from_ (s : Stmt) : Res Stmt :=
  match s.model.tablenameR with
  | .error e => .error e
  | .ok t => s.set_statement .from_ ("FROM " ++ t) []

/-- `Statement.select` with its `@_callback('from_')` decorator: build the
table-qualified column string (an `AttributeError` on a `None` model), store
the `SELECT` statement, then unconditionally call `from_()`. -/
def Stmt.select (s : Stmt) : Res Stmt :=
  match s.column_string true with
  | .error e => .error e
  | .ok colstring =>
    match s.set_statement .select ("SELECT " ++ colstring) [] with
    | .error e => .error e
    | .ok s' => s'.from_

/-- `Statement.insert`: merge passed kwargs, resolve the args, and store
`INSERT INTO <table> (<cols>) VALUES ($n, ...)`, consuming one counter value
per argument. -/
def Stmt.insert (s : Stmt) (kwargs : List (String × Value)) : Res Stmt :=
  let s := if kwargs.isEmpty then s else { s with kwargs := kwargs }
  match s.get_args with
  | .error e => .error e
  | .ok args =>
    match s.model.tablenameR with
    | .error e => .error e
    | .ok t =>
      match s.column_string false with
      | .error e => .error e
      | .ok colstring =>
        let values :=
          pyJoin ", " ((List.range args.length).map (fun i : Nat => "$" ++ toString (s.count + i)))
        ({ s with count := s.count + args.length }).set_statement .insert
          ("INSERT INTO " ++ t ++ " (" ++ colstring ++ ") VALUES (" ++ values ++ ")") args

/-- `Statement.update` with its `@_callback('where', primary_keys=True)`
decorator: merge passed kwargs, resolve the args, store
`UPDATE <table> SET (<cols>) = ($n, ...)`, then unconditionally call
`where(primary_keys=True)` (with `safe_call` at its default `False`). -/
def Stmt.update (s : Stmt) (kwargs : List (String × Value)) : Res Stmt :=
  let s := if kwargs.isEmpty then s else { s with kwargs := kwargs }
  match s.get_args with
  | .error e => .error e
  | .ok args =>
    match s.column_string false with
    | .error e => .error e
    | .ok colstring =>
      match s.model.tablenameR with
      | .error e => .error e
      | .ok t =>
        let arg_string :=
          pyJoin ", " ((List.range args.length).map (fun i : Nat => "$" ++ toString (s.count + i)))
        match ({ s with count := s.count + args.length }).set_statement .update
            ("UPDATE " ++ t ++ " SET (" ++ colstring ++ ") = (" ++ arg_string ++ ")") args with
        | .error e => .error e
        | .ok s' => s'.where_ true false []

/-- `Statement.delete` with its
`@_callback('where', primary_keys=True, safe_call=True)` decorator: store
`DELETE FROM <table>`, then call `where(primary_keys=True, safe_call=True)`. -/
def Stmt.delete (s : Stmt) : Res Stmt :=
  match s.model.tablenameR with
  | .error e => .error e
  | .ok t =>
    match s.set_statement .delete ("DELETE FROM " ++ t) [] with
    | .error e => .error e
    | .ok s' => s'.where_ true true []

/- ### The statement factories -/

/-- Factory `select(model)`. -/
def selectF (model : BoundModel) : Res Stmt :=
  (Stmt.mk0 model []).select

/-- Factory `insert(model=None, **kwargs)`. -/
def insertF (model : BoundModel) (kwargs : List (String × Value)) : Res Stmt :=
  (Stmt.mk0 model kwargs).insert []

/-- Factory `update(model=None, **kwargs)`. -/
def updateF (model : BoundModel) (kwargs : List (String × Value)) : Res Stmt :=
  (Stmt.mk0 model kwargs).update []

/-- Factory `delete(model, **kwargs)`. -/
def deleteF (model : BoundModel) (kwargs : List (String × Value)) : Res Stmt :=
  (Stmt.mk0 model kwargs).delete

/- ### `Column.__get__` / `Column.__set__` (`column/__init__.py`) -/

/-- A `Column`'s `default`: either a plain value or a zero-argument factory.
The factory is modelled as a function of how many times it has been invoked
on the instance, so that "invoked at most once" is observable. -/
inductive ColDefault where
  | value (v : Value)
  | factory (f : Nat → Value)

/-- The per-instance state a `Column` descriptor sees: the value stored under
the hidden key (`Value.none` both for "never set" and for a stored `None`,
exactly as `getattr(instance, hidden, None)` cannot distinguish them), and
the number of factory invocations so far. -/
structure ColState where
  stored : Value
  calls : Nat
deriving DecidableEq, Repr

/-- `Column.__set__`: store the value directly. -/
def columnSet (v : Value) (s : ColState) : ColState :=
  { s with stored := v }

/-- `Column.__get__` on an instance: read the stored value; if it `is None`,
materialise the default (calling the factory if the default is callable, else
using the value literally), store it via `__set__`, and return it. -/
def columnGet (d : ColDefault) (s : ColState) : Value × ColState :=
  if s.stored = Value.none then
    match d with
    | .value v => (v, { s with stored := v })
    | .factory f => (f s.calls, { stored := f s.calls, calls := s.calls + 1 })
  else (s.stored, s)

/- ### Concrete test models -/

/-- The `User` model of the spec's concrete scenarios:
`id = Column('_id', primary_key=True)`, `name = Column()`,
`email = Column()`, `__tablename__ = 'users'`. -/
def UserModel : ModelClass :=
  { tablename := "users",
    cols := [⟨"id", "_id", true⟩, ⟨"name", "name", false⟩, ⟨"email", "email", false⟩] }

/-- A `User` instance with `id=123, name='n', email='e'`. -/
def userVals : List (String × Value) :=
  [("id", Value.int 123), ("name", Value.str "n"), ("email", Value.str "e")]

/-- A model with two primary-key columns, used to exercise multi-placeholder
`WHERE` fragments. -/
def DuoModel : ModelClass :=
  { tablename := "t2",
    cols := [⟨"a", "a", true⟩, ⟨"b", "b", true⟩, ⟨"c", "c", false⟩] }

/-- A `DuoModel` instance with truthy primary-key values. -/
def duoVals : List (String × Value) :=
  [("a", Value.int 1), ("b", Value.int 2), ("c", Value.str "z")]

/- ### Expected-output shapes used in the theorem statements -/

/-- The primary-key columns of a model, in declaration order. -/
def pkCols (mc : ModelClass) : List MCol :=
  mc.cols.filter (·.primary_key)

/-- The value `getattr(instance, attr, None)` yields for a column. -/
def colValue (vals : List (String × Value)) (c : MCol) : Value :=
  (List.lookup c.attr vals).getD Value.none

/-- The `(key, value)` pairs `_parse_where` feeds to `_parse_where_items` on
the instance branch: one per primary-key column. -/
def pkItems (mc : ModelClass) (vals : List (String × Value)) : List (String × Value) :=
  (pkCols mc).map (fun c => (c.key, colValue vals c))

/-- The `'<table>.<resolved key> = $<n>'` fragments `_parse_where_items`
produces for a run of included pairs, numbering from `count`. -/
def whereFrags (mc : ModelClass) : List (String × Value) → Int → List String
  | [], _ => []
  | (k, _) :: rest, count =>
    (mc.tablename ++ "." ++ resolveKey mc k ++ " = $" ++ toString count) ::
      whereFrags mc rest (count + 1)

/-- The same fragments with the keys used as-is (the primary-key keys resolve
to themselves on a well-formed model). -/
def pkFrags (t : String) : List (String × Value) → Int → List String
  | [], _ => []
  | (k, _) :: rest, count =>
    (t ++ "." ++ k ++ " = $" ++ toString count) :: pkFrags t rest (count + 1)

/-- The `SET` fragment `Statement.update` emits for a fresh builder:
all columns, placeholders `$1..$n`. -/
def updateSetText (mc : ModelClass) : String :=
  "UPDATE " ++ mc.tablename ++ " SET (" ++ pyJoin ", " mc.column_names ++ ") = (" ++
    pyJoin ", " ((List.range mc.cols.length).map (fun i : Nat => "$" ++ toString ((1 : Int) + i))) ++ ")"

/-- The `WHERE` fragment the `update` callback chains: the primary-key
columns, numbered after the `SET` fragment's `n` placeholders. -/
def updateWhereText (mc : ModelClass) (vals : List (String × Value)) : String :=
  "WHERE " ++ pyJoin " AND" (pkFrags mc.tablename (pkItems mc vals) ((1 : Int) + mc.cols.length))

/-- The builder state `update(User(id=123, name='n', email='e'))` reaches:
`SET` placeholders `$1..$3`, auto-chained `WHERE users._id = $4`, counter
at `5`. -/
def userUpdateStmt : Stmt :=
  { model := .inst UserModel userVals, kwargs := [], count := 5,
    values :=
      ⟨Option.none, Option.none,
       some ⟨"UPDATE users SET (_id, name, email) = ($1, $2, $3)",
             [Value.int 123, Value.str "n", Value.str "e"]⟩,
       Option.none, Option.none,
       some ⟨"WHERE users._id = $4", [Value.int 123]⟩⟩ }

/-- The placeholder numbers `$N` of a query string, in left-to-right order of
appearance (formalising the spec's "left-to-right appearance of the `$N`
placeholders"): for each `'$'`, the maximal run of digits right after it. -/
def placeholderNumbers (s : String) : List Int :=
  ((pySplit ['$'] s.data).drop 1).filterMap (fun p =>
    let ds := p.takeWhile Char.isDigit
    if ds.isEmpty then Option.none else some ((digitsVal ds : Nat) : Int))

/- ### Helper lemmas -/

/-- `get_statement()` finds a value exactly when some statement slot is set. -/
theorem get_statement_isSome (v : StatementValues) :
    v.get_statement.isSome =
      (v.select.isSome || v.insert.isSome || v.update.isSome || v.delete.isSome) := by
  unfold StatementValues.get_statement
  cases v.select <;> cases v.insert <;> cases v.update <;> cases v.delete <;> simp

/-- `whereFrags` produces one fragment per item. -/
theorem whereFrags_length (mc : ModelClass) :
    ∀ (items : List (String × Value)) (count : Int),
      (whereFrags mc items count).length = items.length := by
  intro items
  induction items with
  | nil => intro count; rfl
  | cons p rest ih => obtain ⟨k, v⟩ := p; intro count; simp [whereFrags, ih]

/-- With a non-`None` check, `_parse_where_items` includes every pair whose
resolved key is in the check set, independent of value truthiness. -/
theorem parseWhereItemsAux_some_all (mc : ModelClass) (cs : List String) (strict : Bool) :
    ∀ (items : List (String × Value)) (count : Int),
      (∀ p ∈ items, cs.contains (resolveKey mc p.1) = true) →
      parseWhereItemsAux mc (some cs) strict items count =
        .ok (whereFrags mc items count, items.map (·.2), count + items.length) := by
  intro items
  induction items with
  | nil => intro count _; simp [parseWhereItemsAux, whereFrags]
  | cons p rest ih =>
    intro count h
    obtain ⟨k, v⟩ := p
    have hk : cs.contains (resolveKey mc k) = true := h (k, v) (by simp)
    have hrest : ∀ q ∈ rest, cs.contains (resolveKey mc q.1) = true :=
      fun q hq => h q (List.mem_cons_of_mem _ hq)
    simp only [parseWhereItemsAux, Option.isNone_some, Bool.and_false, hk, ite_self,
      ih (count + 1) hrest, whereFrags, List.map_cons, List.length_cons,
      Except.ok.injEq, Prod.mk.injEq]
    refine ⟨trivial, trivial, ?_⟩
    push_cast
    ring

/-- With `check=None`, `_parse_where_items` includes every pair as long as
all values are truthy. -/
theorem parseWhereItemsAux_none_truthy (mc : ModelClass) (strict : Bool) :
    ∀ (items : List (String × Value)) (count : Int),
      (∀ p ∈ items, p.2.truthy = true) →
      parseWhereItemsAux mc Option.none strict items count =
        .ok (whereFrags mc items count, items.map (·.2), count + items.length) := by
  intro items
  induction items with
  | nil => intro count _; simp [parseWhereItemsAux, whereFrags]
  | cons p rest ih =>
    intro count h
    obtain ⟨k, v⟩ := p
    have hv : v.truthy = true := h (k, v) (by simp)
    have hrest : ∀ q ∈ rest, q.2.truthy = true :=
      fun q hq => h q (List.mem_cons_of_mem _ hq)
    simp only [parseWhereItemsAux, Option.isNone_none, hv, Bool.and_true, if_true,
      ih (count + 1) hrest, whereFrags, List.map_cons, List.length_cons,
      Except.ok.injEq, Prod.mk.injEq]
    refine ⟨trivial, trivial, ?_⟩
    push_cast
    ring

/-- With `check=None`, a falsy value anywhere among the items makes
`_parse_where_items` raise `TypeError` (Python evaluates `key in None`). -/
theorem parseWhereItemsAux_none_falsy (mc : ModelClass) (strict : Bool) :
    ∀ (items : List (String × Value)) (count : Int),
      (∃ p ∈ items, p.2.truthy = false) →
      parseWhereItemsAux mc Option.none strict items count = .error .typeError := by
  intro items
  induction items with
  | nil => intro count h; simp at h
  | cons p rest ih =>
    intro count h
    obtain ⟨k, v⟩ := p
    by_cases hv : v.truthy = true
    · have hrest : ∃ q ∈ rest, q.2.truthy = false := by
        rcases h with ⟨q, hq, hqf⟩
        rcases List.mem_cons.mp hq with hq | hq
        · subst hq; simp [hv] at hqf
        · exact ⟨q, hq, hqf⟩
      simp [parseWhereItemsAux, hv, ih (count + 1) hrest]
    · have hv' : v.truthy = false := by revert hv; cases v.truthy <;> simp
      simp [parseWhereItemsAux, hv']

/-- `_get_column` over a run of column keys, when each key resolves to its
own column's attribute name. -/
theorem getArgsLoop_eq (mc : ModelClass) (vals : List (String × Value)) :
    ∀ (l : List MCol),
      (∀ c ∈ l, attrNameForColumnAux mc.cols c.key = .ok c.attr) →
      getArgsLoop mc vals (l.map (·.key)) = .ok (l.map (colValue vals)) := by
  intro l
  induction l with
  | nil => intro _; rfl
  | cons c rest ih =>
    intro h
    have hc := h c (by simp)
    have hrest : ∀ c' ∈ rest, attrNameForColumnAux mc.cols c'.key = .ok c'.attr :=
      fun c' hc' => h c' (List.mem_cons_of_mem _ hc')
    simp only [List.map_cons, getArgsLoop, hc, ih hrest, colValue]

/-- The instance branch of `_parse_where` builds one `(key, value)` pair per
primary-key column. -/
theorem pkItemsLoop_eq (mc : ModelClass) (vals : List (String × Value)) :
    ∀ (l : List MCol),
      (∀ c ∈ l, attrNameForColumnAux mc.cols c.key = .ok c.attr) →
      pkItemsLoop mc vals (l.map (·.key)) =
        .ok (l.map (fun c => (c.key, colValue vals c))) := by
  intro l
  induction l with
  | nil => intro _; rfl
  | cons c rest ih =>
    intro h
    have hc := h c (by simp)
    have hrest : ∀ c' ∈ rest, attrNameForColumnAux mc.cols c'.key = .ok c'.attr :=
      fun c' hc' => h c' (List.mem_cons_of_mem _ hc')
    simp only [List.map_cons, pkItemsLoop, hc, ih hrest, colValue]

/-- When every primary-key key resolves to itself, the generic fragments
coincide with the plain-key fragments. -/
theorem whereFrags_eq_pkFrags (mc : ModelClass) (vals : List (String × Value)) :
    ∀ (l : List MCol) (count : Int),
      (∀ c ∈ l, ensuredColumnNameAux mc.cols c.key = .ok c.key) →
      whereFrags mc (l.map (fun c => (c.key, colValue vals c))) count =
        pkFrags mc.tablename (l.map (fun c => (c.key, colValue vals c))) count := by
  intro l
  induction l with
  | nil => intro count _; rfl
  | cons c rest ih =>
    intro count h
    have hc := h c (by simp)
    have hrest : ∀ c' ∈ rest, ensuredColumnNameAux mc.cols c'.key = .ok c'.key :=
      fun c' hc' => h c' (List.mem_cons_of_mem _ hc')
    simp only [List.map_cons, whereFrags, pkFrags, resolveKey, hc]
    exact congrArg _ (ih (count + 1) hrest)

/-- A string with a non-empty prefix is non-empty (for the truthiness guard
of `set_statement`). -/
theorem append_length_ne_zero (a b : String) (h : a.length ≠ 0) : (a ++ b).length ≠ 0 := by
  rw [String.length_append]
  omega

theorem select_text_ne (x : String) : ("SELECT " ++ x).length ≠ 0 :=
  append_length_ne_zero _ _ (by decide)

theorem from_text_ne (x : String) : ("FROM " ++ x).length ≠ 0 :=
  append_length_ne_zero _ _ (by decide)

theorem update_text_ne (x : String) : ("UPDATE " ++ x).length ≠ 0 :=
  append_length_ne_zero _ _ (by decide)

theorem where_text_ne (x : String) : ("WHERE " ++ x).length ≠ 0 :=
  append_length_ne_zero _ _ (by decide)

/-- A second `where(k=v)` call with a single kwarg whose resolved key passes
the column check: the counter is reset to the first integer parsed after
`WHERE` in the current query string, and the `WHERE` clause slot is
overwritten with a fragment numbered from that integer. -/
theorem where_single (st : Stmt) (mc : ModelClass) (k : String) (v : Value)
    (qs : String) (c : Int)
    (hm : st.model.meta? = some mc)
    (hq : st.values.query_string "\n" = .ok qs)
    (hf : findFirstInt "WHERE" qs = some c)
    (hk : mc.column_names.contains (resolveKey mc k) = true) :
    st.where_ false false [(k, v)] =
      .ok { st with
            kwargs := [(k, v)],
            count := c + 1,
            values := { st.values with
                        where_ := some ⟨"WHERE " ++ (mc.tablename ++ "." ++ resolveKey mc k ++
                                          " = $" ++ toString c), [v]⟩ } } := by
  have haux := parseWhereItemsAux_some_all mc mc.column_names true [(k, v)] c
    (by intro p hp
        have hp' : p = (k, v) := by simpa using hp
        subst hp'
        exact hk)
  simp only [Stmt.where_, hq, hf, whereBody, Stmt.parse_where, Stmt.parse_where_items,
    hm, haux, Stmt.set_statement, StatementValues.setValue, whereFrags, pyJoin,
    List.isEmpty_cons, List.map_cons, List.map_nil, List.length_cons, List.length_nil,
    List.isEmpty_nil]
  simp +decide [hm, haux, whereFrags, pyJoin]

/- ### Claim theorems -/

/-- C1 (counterexample): the claim predicts that under the restrictive check
of a plain `where()` call, the falsy-valued pair of
`select(User).where(name='')` is excluded (yielding a failure, as no other
kwargs are present).  In fact Python's precedence makes the inclusion test
`(value and check is None) or (key in check)`, so the pair is included:
the call succeeds with `WHERE users.name = $1` bound to `''`. -/
theorem c1_counterexample :
    ((selectF (.cls UserModel)).bind
        (fun st => st.where_ false false [("name", Value.str "")])).map
      (fun st => (st.query_string "\n", st.query_args)) =
    .ok (.ok "SELECT users._id, users.name, users.email\nFROM users\nWHERE users.name = $1",
         [Value.str ""]) := by rfl

/-- C1 (amended): in `_parse_where_items`, a pair is bound exactly when
`(value is truthy AND check is None) OR (resolved key ∈ check)`.  So (i) with
a non-`None` check, every pair whose resolved key passes the check is bound,
regardless of value truthiness; (ii) with `check=None`, all pairs are bound
when every value is truthy; and (iii) with `check=None`, a falsy value makes
the call raise `TypeError` (from Python's `key in None`). -/
theorem c1_theorem :
    (∀ (s : Stmt) (mc : ModelClass) (cs : List String) (strict : Bool)
        (items : List (String × Value)),
      s.model.meta? = some mc →
      (∀ p ∈ items, cs.contains (resolveKey mc p.1) = true) →
      items ≠ [] →
      s.parse_where_items items (some cs) strict =
        .ok (pyJoin " AND" (whereFrags mc items s.count), items.map (·.2),
             s.count + items.length)) ∧
    (∀ (s : Stmt) (mc : ModelClass) (strict : Bool) (items : List (String × Value)),
      s.model.meta? = some mc →
      (∀ p ∈ items, p.2.truthy = true) →
      items ≠ [] →
      s.parse_where_items items Option.none strict =
        .ok (pyJoin " AND" (whereFrags mc items s.count), items.map (·.2),
             s.count + items.length)) ∧
    (∀ (s : Stmt) (mc : ModelClass) (strict : Bool) (items : List (String × Value)),
      s.model.meta? = some mc →
      (∃ p ∈ items, p.2.truthy = false) →
      s.parse_where_items items Option.none strict = .error .typeError) := by
  refine ⟨?_, ?_, ?_⟩
  · intro s mc cs strict items hm hall hne
    simp only [Stmt.parse_where_items, hm,
      parseWhereItemsAux_some_all mc cs strict items s.count hall,
      whereFrags_length]
    simp [List.length_eq_zero, hne]
  · intro s mc strict items hm hall hne
    simp only [Stmt.parse_where_items, hm,
      parseWhereItemsAux_none_truthy mc strict items s.count hall,
      whereFrags_length]
    simp [List.length_eq_zero, hne]
  · intro s mc strict items hm hfalsy
    simp only [Stmt.parse_where_items, hm,
      parseWhereItemsAux_none_falsy mc strict items s.count hfalsy]

/-- C1 (witness): the three parts of `c1_theorem` at concrete inputs on the
`User` model — a falsy value with a passing key is bound under the
restrictive check; a truthy primary-key value is bound under `check=None`;
a falsy value under `check=None` raises `TypeError`. -/
theorem c1_witness :
    (Stmt.mk0 (.cls UserModel) []).parse_where_items
        [("name", Value.str "")] (some ["_id", "name", "email"]) true =
      .ok ("users.name = $1", [Value.str ""], 2) ∧
    (Stmt.mk0 (.cls UserModel) []).parse_where_items
        [("id", Value.int 5)] Option.none false =
      .ok ("users._id = $1", [Value.int 5], 2) ∧
    (Stmt.mk0 (.cls UserModel) []).parse_where_items
        [("id", Value.int 0)] Option.none false = .error .typeError := by
  refine ⟨?_, ?_, ?_⟩
  · exact c1_theorem.1 (Stmt.mk0 (.cls UserModel) []) UserModel
      ["_id", "name", "email"] true [("name", Value.str "")] rfl
      (by decide) (by decide)
  · exact c1_theorem.2.1 (Stmt.mk0 (.cls UserModel) []) UserModel
      false [("id", Value.int 5)] rfl (by decide) (by decide)
  · exact c1_theorem.2.2 (Stmt.mk0 (.cls UserModel) []) UserModel
      false [("id", Value.int 0)] rfl (by decide)

/-- C2 (counterexample): after `update` on a two-primary-key instance the
query string ends in `WHERE t2.a = $4 ANDt2.b = $5` — its first placeholder
is `$4` — but a second `where(c='x')` numbers the replacement clause from
`$5`, not `$4`: `int('4 ANDt2.b = ')` fails, so the first parseable integer
after `WHERE` is the final `5`. -/
theorem c2_counterexample :
    (updateF (.inst DuoModel duoVals) []).map (fun st => st.query_string "\n") =
      .ok (.ok "UPDATE t2 SET (a, b, c) = ($1, $2, $3)\nWHERE t2.a = $4 ANDt2.b = $5") ∧
    ((updateF (.inst DuoModel duoVals) []).bind
        (fun st => st.where_ false false [("c", Value.str "x")])).map
      (fun st => st.values.where_) = .ok (some ⟨"WHERE t2.c = $5", [Value.str "x"]⟩) ∧
    ((updateF (.inst DuoModel duoVals) []).bind
        (fun st => st.where_ false false [("c", Value.str "x")])).map
      (fun st => st.values.where_) ≠ .ok (some ⟨"WHERE t2.c = $4", [Value.str "x"]⟩) := by
  refine ⟨rfl, rfl, by decide⟩

/-- C2 (amended): when the current `WHERE` fragment holds a single
placeholder `$k` (here the auto-chained `WHERE users._id = $4` of `update`),
a second `where(name=v)` call — for any value `v` — replaces the clause and
numbers it again from `$4`, as the claim's example states; with several
placeholders the counter instead restarts at the first *parseable* integer
after `WHERE`, which is the last placeholder (see `c2_counterexample`). -/
theorem c2_theorem (v : Value) :
    (updateF (.inst UserModel userVals) []).map (fun st => st.values.where_) =
      .ok (some ⟨"WHERE users._id = $4", [Value.int 123]⟩) ∧
    ((updateF (.inst UserModel userVals) []).bind
        (fun st => st.where_ false false [("name", v)])).map
      (fun st => (st.values.where_, st.query_string "\n")) =
      .ok (some ⟨"WHERE users.name = $4", [v]⟩,
           .ok "UPDATE users SET (_id, name, email) = ($1, $2, $3)\nWHERE users.name = $4") := by
  have h0 : updateF (.inst UserModel userVals) [] = Except.ok userUpdateStmt := by rfl
  constructor
  · rw [h0]; rfl
  · rw [h0]
    have h1 := where_single userUpdateStmt UserModel "name" v
      "UPDATE users SET (_id, name, email) = ($1, $2, $3)\nWHERE users._id = $4" 4
      rfl rfl rfl rfl
    simp only [Except.bind, h1]
    rfl

/-- C3: for every model instance whose column keys resolve cleanly (first
match wins in both directions), with at least one primary key, all
primary-key values truthy, and no stray `WHERE` text inside the `SET`
fragment, `update(instance)` emits `UPDATE <table> SET (<all n columns>) =
($1, ..., $n)` and unconditionally chains a `WHERE` fragment over exactly the
primary-key columns whose placeholder numbers continue at `$(n+1)`, with
`query_args` being the n column values followed by the primary-key values. -/
theorem c3_theorem (mc : ModelClass) (vals : List (String × Value))
    (hA : ∀ c ∈ mc.cols, attrNameForColumnAux mc.cols c.key = .ok c.attr)
    (hE : ∀ c ∈ pkCols mc, ensuredColumnNameAux mc.cols c.key = .ok c.key)
    (hpk : pkCols mc ≠ [])
    (ht : ∀ c ∈ pkCols mc, (colValue vals c).truthy = true)
    (hW : findFirstInt "WHERE" (updateSetText mc) = Option.none) :
    (updateF (.inst mc vals) []).map
        (fun st => (st.values.update, st.values.where_, st.query_string "\n", st.query_args)) =
      .ok (some ⟨updateSetText mc, mc.cols.map (colValue vals)⟩,
           some ⟨updateWhereText mc vals, (pkCols mc).map (colValue vals)⟩,
           .ok (updateSetText mc ++ "\n" ++ updateWhereText mc vals),
           mc.cols.map (colValue vals) ++ (pkCols mc).map (colValue vals)) := by
  have hA' : getArgsLoop mc vals (mc.cols.map (·.key)) = .ok (mc.cols.map (colValue vals)) :=
    getArgsLoop_eq mc vals mc.cols hA
  have hApk : ∀ c ∈ pkCols mc, attrNameForColumnAux mc.cols c.key = .ok c.attr :=
    fun c hc => hA c (List.mem_of_mem_filter hc)
  have hpkLoop : pkItemsLoop mc vals ((mc.cols.filter (·.primary_key)).map (·.key)) =
      .ok (pkItems mc vals) := by
    have h := pkItemsLoop_eq mc vals (pkCols mc) hApk
    simpa [pkItems, pkCols] using h
  have htItems : ∀ p ∈ pkItems mc vals, p.2.truthy = true := by
    intro p hp
    obtain ⟨c, hc, rfl⟩ := List.mem_map.mp hp
    exact ht c hc
  have hauxNone := parseWhereItemsAux_none_truthy mc false (pkItems mc vals)
    ((1 : Int) + mc.cols.length) htItems
  have hfrags := whereFrags_eq_pkFrags mc vals (pkCols mc) ((1 : Int) + mc.cols.length) hE
  simp only [pkItems, pkCols] at hauxNone hfrags
  have hne : whereFrags mc
      (List.map (fun c => (c.key, colValue vals c)) (mc.cols.filter (·.primary_key)))
      ((1 : Int) + mc.cols.length) ≠ [] := by
    intro h
    have hl := congrArg List.length h
    rw [whereFrags_length] at hl
    simp only [List.length_map, List.length_nil, List.length_eq_zero] at hl
    exact hpk (by simpa [pkCols] using hl)
  rw [hfrags] at hne
  simp only [updateSetText, updateWhereText, ModelClass.column_names] at hW ⊢
  simp +decide [updateF, Stmt.update, Stmt.mk0, Stmt.get_args, Stmt.get_args_from_model,
    hA', ModelClass.column_names, Stmt.column_string, BoundModel.meta?, BoundModel.tablenameR,
    Stmt.set_statement, StatementValues.setValue, StatementValues.get_statement,
    StatementValues.empty, Stmt.where_, Stmt.query_string, StatementValues.query_string,
    StatementValues.get_clauses, hW, whereBody, Stmt.parse_where, Stmt.parse_where_items,
    hpkLoop, ModelClass.primary_keys, hauxNone, whereFrags_length, hne, hfrags,
    pkItems, pkCols, Function.comp, Stmt.query_args, StatementValues.query_args,
    Except.map, pyJoin]

/-- C3 (witness): `c3_theorem` on the concrete `User` instance
`User(id=123, name='n', email='e')`. -/
theorem c3_witness :
    (updateF (.inst UserModel userVals) []).map
        (fun st => (st.values.update, st.values.where_, st.query_string "\n", st.query_args)) =
      .ok (some ⟨updateSetText UserModel, UserModel.cols.map (colValue userVals)⟩,
           some ⟨updateWhereText UserModel userVals, (pkCols UserModel).map (colValue userVals)⟩,
           .ok (updateSetText UserModel ++ "\n" ++ updateWhereText UserModel userVals),
           UserModel.cols.map (colValue userVals) ++ (pkCols UserModel).map (colValue userVals)) :=
  c3_theorem UserModel userVals (by decide) (by decide) (by decide) (by decide) (by decide)

/-- C4 (counterexample): `delete` on a two-primary-key instance followed by
`where(c='x')` yields the query `DELETE FROM t2\nWHERE t2.c = $2` with the
single argument `'x'` — the placeholder numbers appearing left to right are
`[2]`, not `[1]`, so they do not match the argument positions. -/
theorem c4_counterexample :
    ((deleteF (.inst DuoModel duoVals) []).bind
        (fun st => st.where_ false false [("c", Value.str "x")])).map
      (fun st => st.query) =
      .ok (.ok ("DELETE FROM t2\nWHERE t2.c = $2", [Value.str "x"])) ∧
    placeholderNumbers "DELETE FROM t2\nWHERE t2.c = $2" = [2] ∧
    placeholderNumbers "DELETE FROM t2\nWHERE t2.c = $2" ≠ [1] := by
  refine ⟨rfl, rfl, by decide⟩

/-- C4 (amended): `query()` / iteration always yields the query string first,
followed by the statement args, then the `from` clause args, then the `where`
clause args, in that concatenation order.  (The placeholder-number/argument
correspondence of the original claim does not hold for every builder — see
`c4_counterexample`.) -/
theorem c4_theorem (v : StatementValues) (stmt : StmtVal)
    (h : v.get_statement = some stmt) :
    ∃ qs : String, v.query_string "\n" = .ok qs ∧
      v.query = .ok (qs,
        stmt.args ++ (((v.from_).map (·.args)).getD [] ++ ((v.where_).map (·.args)).getD [])) := by
  refine ⟨pyJoin "\n" (stmt.text :: (v.get_clauses.filterMap id).map (·.text)), ?_, ?_⟩
  · simp [StatementValues.query_string, h]
  · simp only [StatementValues.query, StatementValues.query_string,
      StatementValues.query_args, StatementValues.get_clauses, h]
    cases hf : v.from_ <;> cases hw : v.where_ <;> simp

/-- C4 (witness): `c4_theorem` applied to a concrete store holding a
statement and both clauses. -/
theorem c4_witness :
    ∃ qs : String,
      StatementValues.query_string
        ⟨some ⟨"SELECT x", [Value.int 1]⟩, Option.none, Option.none, Option.none,
         some ⟨"FROM t", [Value.int 2]⟩, some ⟨"WHERE y", [Value.int 3]⟩⟩ "\n" = .ok qs ∧
      StatementValues.query
        ⟨some ⟨"SELECT x", [Value.int 1]⟩, Option.none, Option.none, Option.none,
         some ⟨"FROM t", [Value.int 2]⟩, some ⟨"WHERE y", [Value.int 3]⟩⟩ =
        .ok (qs, [Value.int 1] ++ ([Value.int 2] ++ [Value.int 3])) :=
  c4_theorem
    ⟨some ⟨"SELECT x", [Value.int 1]⟩, Option.none, Option.none, Option.none,
     some ⟨"FROM t", [Value.int 2]⟩, some ⟨"WHERE y", [Value.int 3]⟩⟩
    ⟨"SELECT x", [Value.int 1]⟩ rfl

/-- C5 (counterexample): the claim predicts that re-setting the *same*
statement kind records the new value; in fact `StatementDescriptor.__set__`
raises `TypeError` whenever any statement slot (same kind included) holds a
value. -/
theorem c5_counterexample :
    StatementValues.setValue
        ⟨some ⟨"SELECT 1", []⟩, Option.none, Option.none, Option.none, Option.none, Option.none⟩
        .select ⟨"SELECT 2", []⟩ = .error .typeError ∧
    StatementValues.setValue
        ⟨some ⟨"SELECT 1", []⟩, Option.none, Option.none, Option.none, Option.none, Option.none⟩
        .select ⟨"SELECT 2", []⟩ ≠
      .ok ⟨some ⟨"SELECT 2", []⟩, Option.none, Option.none, Option.none, Option.none, Option.none⟩ := by
  refine ⟨rfl, by decide⟩

/-- C5 (amended): setting a statement on the value store fails iff *any*
statement kind (the same kind included) already holds a value; the `from_`
and `where` clauses may always be overwritten, the most recent assignment
replacing the prior one. -/
theorem c5_theorem (v : StatementValues) (val val' : StmtVal) :
    (v.setValue .select val =
      if v.select.isSome || v.insert.isSome || v.update.isSome || v.delete.isSome
      then .error .typeError else .ok { v with select := some val }) ∧
    (v.setValue .insert val =
      if v.select.isSome || v.insert.isSome || v.update.isSome || v.delete.isSome
      then .error .typeError else .ok { v with insert := some val }) ∧
    (v.setValue .update val =
      if v.select.isSome || v.insert.isSome || v.update.isSome || v.delete.isSome
      then .error .typeError else .ok { v with update := some val }) ∧
    (v.setValue .delete val =
      if v.select.isSome || v.insert.isSome || v.update.isSome || v.delete.isSome
      then .error .typeError else .ok { v with delete := some val }) ∧
    (v.setValue .from_ val = .ok { v with from_ := some val }) ∧
    (v.setValue .where_ val = .ok { v with where_ := some val }) ∧
    ((v.setValue .where_ val).bind (fun v' => v'.setValue .where_ val') =
      .ok { v with where_ := some val' }) := by
  refine ⟨?_, ?_, ?_, ?_, rfl, rfl, rfl⟩ <;>
    simp [StatementValues.setValue, get_statement_isSome]

/-- C6: for every model class `M`, `select(M)` stores
`SELECT <table>.c1, ..., <table>.cn` (every column table-qualified, in
declaration order) and — via the unconditional `from_` callback — the clause
`FROM <table>`, and `query_string()` is the two fragments joined by the
default newline separator. -/
theorem c6_theorem (mc : ModelClass) :
    (selectF (.cls mc)).map
        (fun st => (st.values.select, st.values.from_, st.query_string "\n")) =
      .ok (some ⟨"SELECT " ++ pyJoin ", " (mc.column_names.map (fun x => mc.tablename ++ "." ++ x)), []⟩,
           some ⟨"FROM " ++ mc.tablename, []⟩,
           .ok ("SELECT " ++ pyJoin ", " (mc.column_names.map (fun x => mc.tablename ++ "." ++ x)) ++
                "\n" ++ ("FROM " ++ mc.tablename))) := by
  simp +decide [selectF, Stmt.select, Stmt.mk0, Stmt.column_string, BoundModel.meta?,
    Except.map, Stmt.set_statement, StatementValues.setValue,
    StatementValues.get_statement, StatementValues.empty, Stmt.from_,
    BoundModel.tablenameR, Stmt.query_string, StatementValues.query_string,
    StatementValues.get_clauses, pyJoin]

/-- C7: `delete(User, id=123)` produces
`DELETE FROM users\nWHERE users._id = $1` with args `(123,)`: the kwarg key
`id` resolves to the database key `_id`, passes the non-strict primary-key
check, and is bound as the single placeholder. -/
theorem c7_theorem :
    (deleteF (.cls UserModel) [("id", Value.int 123)]).map
      (fun st => (st.query_string "\n", st.query_args)) =
    .ok (.ok "DELETE FROM users\nWHERE users._id = $1", [Value.int 123]) := by rfl

/-- C8 (counterexample): `select()` on a builder bound to `None` does not
raise the incomplete-statement `TypeError`: the attribute access
`self.model.column_names()` on `None` raises `AttributeError` first. -/
theorem c8_counterexample :
    selectF BoundModel.none ≠ .error .typeError := by decide

/-- C8 (amended): on a builder bound to `None`, `insert()` (with no kwargs)
raises the incomplete-arguments `TypeError`, while `select()` raises
`AttributeError` from introspecting the missing model — both fail, but only
`insert` fails with the incomplete-statement condition. -/
theorem c8_theorem :
    selectF BoundModel.none = .error .attributeError ∧
    insertF BoundModel.none [] = .error .typeError :=
  ⟨rfl, rfl⟩

/-- C9 (counterexample): the claim predicts `get` returns exactly the value
passed to `set`; but `None` is the descriptor's unset sentinel, so after
`set(instance, None)` on a column with default `'test'`, `get` re-materialises
the default and returns `'test'`, not `None`. -/
theorem c9_counterexample :
    (columnGet (ColDefault.value (Value.str "test"))
        (columnSet Value.none ⟨Value.none, 0⟩)).1 = Value.str "test" ∧
    Value.str "test" ≠ Value.none := by
  refine ⟨rfl, by decide⟩

/-- C9 (amended): for a non-`None` value, `get` after `set` returns exactly
that value; every `get` leaves the returned value stored on the instance; and
when a `get` returns a non-`None` value, a subsequent `get` returns the same
cached value with the state unchanged — in particular the default factory is
not invoked again. -/
theorem c9_theorem (d : ColDefault) (s : ColState) (v : Value) :
    (v ≠ Value.none → (columnGet d (columnSet v s)).1 = v) ∧
    ((columnGet d s).2.stored = (columnGet d s).1) ∧
    ((columnGet d s).1 ≠ Value.none →
      columnGet d (columnGet d s).2 = ((columnGet d s).1, (columnGet d s).2)) := by
  refine ⟨?_, ?_, ?_⟩
  · intro hv
    cases d <;> simp [columnGet, columnSet, hv]
  · by_cases hs : s.stored = Value.none <;> cases d <;> simp [columnGet, hs]
  · intro h1
    by_cases hs : s.stored = Value.none <;> cases d <;>
      simp_all [columnGet]

/-- C9 (witness): `c9_theorem` at a stored value `5`, and a factory default
materialised once and then cached. -/
theorem c9_witness :
    (columnGet (ColDefault.factory (fun n => Value.int (Int.ofNat n + 7)))
        (columnSet (Value.int 5) ⟨Value.none, 0⟩)).1 = Value.int 5 ∧
    (columnGet (ColDefault.factory (fun n => Value.int (Int.ofNat n + 7)))
        ⟨Value.none, 0⟩).2.stored =
      (columnGet (ColDefault.factory (fun n => Value.int (Int.ofNat n + 7)))
        ⟨Value.none, 0⟩).1 ∧
    columnGet (ColDefault.factory (fun n => Value.int (Int.ofNat n + 7)))
        (columnGet (ColDefault.factory (fun n => Value.int (Int.ofNat n + 7)))
          ⟨Value.none, 0⟩).2 =
      ((columnGet (ColDefault.factory (fun n => Value.int (Int.ofNat n + 7)))
          ⟨Value.none, 0⟩).1,
       (columnGet (ColDefault.factory (fun n => Value.int (Int.ofNat n + 7)))
          ⟨Value.none, 0⟩).2) := by
  refine ⟨?_, ?_, ?_⟩
  · exact (c9_theorem (ColDefault.factory (fun n => Value.int (Int.ofNat n + 7)))
      ⟨Value.none, 0⟩ (Value.int 5)).1 (by decide)
  · exact (c9_theorem (ColDefault.factory (fun n => Value.int (Int.ofNat n + 7)))
      ⟨Value.none, 0⟩ (Value.int 5)).2.1
  · exact (c9_theorem (ColDefault.factory (fun n => Value.int (Int.ofNat n + 7)))
      ⟨Value.none, 0⟩ (Value.int 5)).2.2 (by decide)

/-- C10: on a builder with no statement set, `where(..., safe_call=True)`
raises `TypeError` instead of returning the builder: the
`_reset_counter` decorator calls `query_string()` — which fails strictly —
before the error-suppressing `try` block of `where` is entered. -/
theorem c10_theorem (s : Stmt) (primary_keys : Bool) (kwargs : List (String × Value))
    (h : s.values.get_statement = Option.none) :
    s.where_ primary_keys true kwargs = .error .typeError := by
  simp [Stmt.where_, StatementValues.query_string, h]

/-- C10 (witness): `c10_theorem` on a fresh builder bound to the `User`
class, with kwargs that would otherwise parse fine. -/
theorem c10_witness :
    (Stmt.mk0 (.cls UserModel) []).where_ false true [("name", Value.str "x")] =
      .error .typeError :=
  c10_theorem (Stmt.mk0 (.cls UserModel) []) false [("name", Value.str "x")] rfl

end Orm
